import Mathlib

/-!
Verification of the TileDB-VCF Python `Dataset` layer
(`src/apis/python/src/tiledbvcf/dataset.py`).

The Python module orchestrates a paginated read protocol and a bulk-ingest
protocol against an external storage engine (`libtiledbvcf.Reader` and
`libtiledbvcf.Writer`).  The engine itself is not part of the sources, so
its handle state is modelled here from the specification of its interface:
one bounded unit of read work per `read()` invocation, a `completed()` flag
reporting whether the last unit produced a complete result set, and a
`reset()` that restarts the session.  Everything in the `Dataset` layer
itself (mode checks, argument validation, the order of engine calls, the
generator `read_iter`, the attribute classifier) is translated directly
from the Python source.  Tabular results are modelled by their row counts,
which is all the verified properties speak about.
-/

deriving instance DecidableEq for Except

/-- Error taxonomy of the layer.  The Python code raises plain exceptions;
the constructors here follow the design taxonomy, with the source message
kept for the mode errors. -/
inductive VCFError where
  | invalidMode (msg : String)
  | conflictingSelection
  | incompleteScratchConfig
  | invalidArgument
  | inconsistentState
  | unsupportedMode (mode : String)
deriving DecidableEq, Repr

/-- Engine-override configuration value, the three accepted shapes of the
`tiledb_config` field: an ordered list of strings, a mapping (a Python
dict, modelled as an association list in insertion order), or an external
`tiledb.Config` object (also key/value iteration). -/
inductive TdbConfig where
  | list (items : List String)
  | dict (entries : List (String × String))
  | config (entries : List (String × String))
deriving DecidableEq, Repr

/-- Read configuration namedtuple `ReadConfig` from the source: six
optional fields, all defaulting to unset. -/
structure ReadConfig where
  limit : Option Nat := none
  region_partition : Option (Nat × Nat) := none
  sample_partition : Option (Nat × Nat) := none
  sort_regions : Option Bool := none
  memory_budget_mb : Option Nat := none
  tiledb_config : Option TdbConfig := none
deriving DecidableEq, Repr

/-- Modelled from the spec: the state of the engine read handle
(`libtiledbvcf.Reader`).  The selection and configuration fields record
the last value handed to the corresponding engine setter (`none` = the
setter was never called).  The pagination plan is the finite list of
chunk row-counts the engine will deliver for the dataset; `remaining` is
the part not yet delivered, `completed` the engine-reported completion
flag, `lastChunk` the row count buffered by the most recent read unit and
`readCalls` counts engine read-unit invocations.  The metadata fields are
the engine-reported attribute and sample lists. -/
structure ReaderState where
  samplesSel : Option String := none
  samplesFileSel : Option String := none
  regionsSel : Option String := none
  attrsSel : Option (List String) := none
  bedFileSel : Option String := none
  tiledbConfigSel : Option String := none
  maxNumRecords : Option Nat := none
  regionPartition : Option (Nat × Nat) := none
  samplePartition : Option (Nat × Nat) := none
  sortRegionsSel : Option Bool := none
  memoryBudget : Option Nat := none
  statsEnabled : Bool := false
  verboseSel : Bool := false
  plan : List Nat := []
  remaining : List Nat := []
  completed : Bool := false
  lastChunk : Nat := 0
  readCalls : Nat := 0
  queryableAttrs : List String := []
  infoAttrs : List String := []
  fmtAttrs : List String := []
  sampleNames : List String := []
  sampleCountVal : Nat := 0
  schemaVersion : Nat := 0
  stats : String := ""
deriving DecidableEq, Repr

/-- Modelled from the spec: the state of the engine write handle
(`libtiledbvcf.Writer`).  Setter fields record the last value handed to
the engine; the three counters record how many `create_dataset`,
`register_samples` and `ingest_samples` engine calls were issued. -/
structure WriterState where
  extraAttrsSel : Option String := none
  tileCapacitySel : Option Nat := none
  anchorGapSel : Option Nat := none
  checksumSel : Option String := none
  allowDuplicatesSel : Option Bool := none
  numThreadsSel : Option Nat := none
  memoryBudgetSel : Option Nat := none
  scratchSpaceSel : Option (String × Nat) := none
  sampleBatchSizeSel : Option Nat := none
  samplesSel : Option String := none
  tiledbConfigSel : Option String := none
  verboseSel : Bool := false
  schemaVersion : Nat := 0
  createCalls : Nat := 0
  registerCalls : Nat := 0
  ingestCalls : Nat := 0
deriving DecidableEq, Repr

/-- Modelled from the spec: one bounded unit of engine read work.  The
engine delivers the next chunk of the plan and reports completion exactly
when nothing remains to deliver afterwards; a read issued with nothing
remaining delivers an empty buffer and reports completion. -/
def engineRead (r : ReaderState) : ReaderState :=
  match r.remaining with
  | [] => { r with completed := true, lastChunk := 0, readCalls := r.readCalls + 1 }
  | c :: rest =>
      { r with remaining := rest, lastChunk := c, completed := rest.isEmpty,
               readCalls := r.readCalls + 1 }

/-- Modelled from the spec: `reset()` returns the handle to the configured
state, clearing prior region/sample/attribute selection and restarting the
pagination (a full restart, not a resume point).  Engine configuration and
the instrumentation counter survive. -/
def readerReset (r : ReaderState) : ReaderState :=
  { r with samplesSel := none, samplesFileSel := none, regionsSel := none,
           attrsSel := none, bedFileSel := none,
           remaining := r.plan, completed := false, lastChunk := 0 }

/-- Modelled from the spec: `result_num_records()`, the engine-reported
matched-record count, is the number of rows buffered by the most recent
read unit. -/
def resultNumRecords (r : ReaderState) : Nat := r.lastChunk

/-- Translation of the engine-override normalization shared by
`_set_read_cfg` and `_set_write_cfg`: a list is joined as given; a dict is
converted to key=value entries with empty-string values filtered out; a
`tiledb.Config` object is iterated the same way, but when the `tiledb`
module is unavailable the `ImportError` is swallowed and the list stays
empty.  All three shapes are handed to the engine as one comma-joined
string. -/
def normalizeTiledbConfig (c : TdbConfig) (tiledbAvailable : Bool) : String :=
  match c with
  | .list items => String.intercalate "," items
  | .dict entries =>
      String.intercalate ","
        ((entries.filter (fun kv => kv.2 ≠ "")).map (fun kv => kv.1 ++ "=" ++ kv.2))
  | .config entries =>
      if tiledbAvailable then
        String.intercalate ","
          ((entries.filter (fun kv => kv.2 ≠ "")).map (fun kv => kv.1 ++ "=" ++ kv.2))
      else
        String.intercalate "," []

/-- Translation of `Dataset._set_read_cfg`: each present field of the
configuration is applied to the read handle by one engine call; absent
fields are no-ops. -/
def setReadCfg (r : ReaderState) (cfg : Option ReadConfig) (tiledbAvailable : Bool) :
    ReaderState :=
  match cfg with
  | none => r
  | some c =>
    let r := match c.limit with
      | some v => { r with maxNumRecords := some v }
      | none => r
    let r := match c.region_partition with
      | some p => { r with regionPartition := some p }
      | none => r
    let r := match c.sample_partition with
      | some p => { r with samplePartition := some p }
      | none => r
    let r := match c.sort_regions with
      | some b => { r with sortRegionsSel := some b }
      | none => r
    let r := match c.memory_budget_mb with
      | some m => { r with memoryBudget := some m }
      | none => r
    match c.tiledb_config with
    | some t => { r with tiledbConfigSel := some (normalizeTiledbConfig t tiledbAvailable) }
    | none => r

/-- Translation of `Dataset._set_write_cfg`: only the engine-override
field is applied to the write handle. -/
def setWriteCfg (w : WriterState) (cfg : Option ReadConfig) (tiledbAvailable : Bool) :
    WriterState :=
  match cfg with
  | none => w
  | some c =>
    match c.tiledb_config with
    | some t => { w with tiledbConfigSel := some (normalizeTiledbConfig t tiledbAvailable) }
    | none => w

/-- The session handle of the layer.  The Python object carries a reader
in read mode and a writer in write mode; the model carries both records
and the mode string, with the wrong-mode handle inert (never touched by
any operation that passes its mode check). -/
structure Dataset where
  uri : String
  mode : String
  reader : ReaderState
  writer : WriterState
deriving DecidableEq, Repr

/-- Modelled from the spec: everything the engine reports about the
dataset stored at a location — the pagination plan the current selection
produces, the metadata lists, and whether the external `tiledb` module is
importable in the environment. -/
structure EngineEnv where
  plan : List Nat := []
  queryableAttrs : List String := []
  infoAttrs : List String := []
  fmtAttrs : List String := []
  sampleNames : List String := []
  sampleCountVal : Nat := 0
  schemaVersionVal : Nat := 0
  tiledbAvailable : Bool := true
deriving DecidableEq, Repr

/-- Modelled from the spec: a freshly initialized engine read handle for
the given dataset: nothing selected, pagination not started. -/
def freshReader (env : EngineEnv) : ReaderState :=
  { plan := env.plan, remaining := env.plan,
    queryableAttrs := env.queryableAttrs, infoAttrs := env.infoAttrs,
    fmtAttrs := env.fmtAttrs, sampleNames := env.sampleNames,
    sampleCountVal := env.sampleCountVal, schemaVersion := env.schemaVersionVal }

/-- Modelled from the spec: a freshly initialized engine write handle for
the given dataset. -/
def freshWriter (env : EngineEnv) : WriterState :=
  { schemaVersion := env.schemaVersionVal }

/-- Translation of `Dataset.__init__`: mode "r" creates and configures a
read handle, mode "w" creates and configures a write handle, and any
other mode string raises before any engine handle is created or
initialized. -/
def Dataset.init (uri : String) (mode : String) (cfg : Option ReadConfig)
    (stats : Bool) (verbose : Bool) (env : EngineEnv) : Except VCFError Dataset :=
  if mode = "r" then
    let r := setReadCfg (freshReader env) cfg env.tiledbAvailable
    let r := { r with statsEnabled := stats, verboseSel := verbose }
    .ok { uri := uri, mode := mode, reader := r, writer := freshWriter env }
  else if mode = "w" then
    let w := setWriteCfg (freshWriter env) cfg env.tiledbAvailable
    let w := { w with verboseSel := verbose }
    .ok { uri := uri, mode := mode, reader := freshReader env, writer := w }
  else
    .error (.unsupportedMode mode)

/-- Translation of `Dataset._set_samples`: both selections together raise
the conflicting-selection failure; an explicit list is joined and handed
to `set_samples`; a file clears `set_samples` and hands the file to
`set_samples_file`; neither is a no-op. -/
def setSamplesOp (r : ReaderState) (samples : Option (List String))
    (samplesFile : Option String) : Except VCFError ReaderState :=
  match samples, samplesFile with
  | some _, some _ => .error .conflictingSelection
  | some ss, none => .ok { r with samplesSel := some (String.intercalate "," ss) }
  | none, some f => .ok { r with samplesSel := some "", samplesFileSel := some f }
  | none, none => .ok r

/-- Translation of `Dataset.continue_read`: one engine read unit, then the
buffered rows are converted to the tabular result (modelled by the row
count). -/
def Dataset.continue_read (d : Dataset) : Dataset × Except VCFError Nat :=
  if d.mode = "r" then
    let r := engineRead d.reader
    ({ d with reader := r }, .ok r.lastChunk)
  else
    (d, .error (.invalidMode "Dataset not open in read mode"))

/-- Translation of `Dataset.read_completed`: reports the engine completion
flag for the most recent read unit. -/
def Dataset.read_completed (d : Dataset) : Except VCFError Bool :=
  if d.mode = "r" then .ok d.reader.completed
  else .error (.invalidMode "Dataset not open in read mode")

/-- Translation of `Dataset.read`: reset, sample selection (may raise),
region selection (comma-joined, empty if unset), attribute selection,
optional BED file, then one read-and-return cycle via `continue_read`. -/
def Dataset.read (d : Dataset) (attrs : List String) (samples : Option (List String))
    (regions : Option (List String)) (samplesFile : Option String)
    (bedFile : Option String) : Dataset × Except VCFError Nat :=
  if d.mode = "r" then
    let r0 := readerReset d.reader
    match setSamplesOp r0 samples samplesFile with
    | .error e => ({ d with reader := r0 }, .error e)
    | .ok r1 =>
      let r2 := { r1 with regionsSel := some (String.intercalate "," (regions.getD [])) }
      let r3 := { r2 with attrsSel := some attrs }
      let r4 := match bedFile with
        | some b => { r3 with bedFileSel := some b }
        | none => r3
      Dataset.continue_read { d with reader := r4 }
  else
    (d, .error (.invalidMode "Dataset not open in read mode"))

/-- Termination measure for the pagination loops: chunks left to deliver,
plus one when the completion flag is still down. -/
def readerMeasure (r : ReaderState) : Nat :=
  r.remaining.length + (if r.completed then 0 else 1)

/-- Translation of the generator body
`while not self.read_completed(): yield self.continue_read()`, specialized
to a read-mode session: drain the engine one read unit at a time until it
reports completion, collecting the chunk row counts. -/
def drainReader (r : ReaderState) : ReaderState × List Nat :=
  if r.completed then (r, [])
  else
    let r1 := engineRead r
    let p := drainReader r1
    (p.1, r1.lastChunk :: p.2)
termination_by readerMeasure r
decreasing_by
  have h : r.completed = false := by
    simpa using (by assumption : ¬ r.completed = true)
  show readerMeasure (engineRead r) < readerMeasure r
  unfold engineRead readerMeasure
  cases hr : r.remaining with
  | nil => simp [h]
  | cons c rest =>
      cases rest with
      | nil => simp [h, List.isEmpty]
      | cons c2 tl => simp [h, List.isEmpty]

/-- Translation of the generator `Dataset.read_iter`: nothing is yielded
when the session already reports completion (the guard skips the initial
read and the loop condition is immediately false); otherwise the first
element is the result of `read(...)` and the loop drains the session. -/
def Dataset.read_iter (d : Dataset) (attrs : List String) (samples : Option (List String))
    (regions : Option (List String)) (samplesFile : Option String)
    (bedFile : Option String) : Dataset × Except VCFError (List Nat) :=
  if d.mode = "r" then
    if d.reader.completed then (d, .ok [])
    else
      match Dataset.read d attrs samples regions samplesFile bedFile with
      | (d1, .error e) => (d1, .error e)
      | (d1, .ok rows) =>
          let p := drainReader d1.reader
          ({ d1 with reader := p.1 }, .ok (rows :: p.2))
  else
    (d, .error (.invalidMode "Dataset not open in read mode"))

/-- Translation of `Dataset.count`: reset, sample and region selection
only, one engine read unit; the aggregate must be complete after that
single unit, otherwise the inconsistent-state failure is raised; the
engine-reported matched-record count is returned. -/
def Dataset.count (d : Dataset) (samples regions : Option (List String)) :
    Dataset × Except VCFError Nat :=
  if d.mode = "r" then
    let r0 := readerReset d.reader
    let r1 := { r0 with samplesSel := some (String.intercalate "," (samples.getD [])) }
    let r2 := { r1 with regionsSel := some (String.intercalate "," (regions.getD [])) }
    let r3 := engineRead r2
    if r3.completed then ({ d with reader := r3 }, .ok (resultNumRecords r3))
    else ({ d with reader := r3 }, .error .inconsistentState)
  else
    (d, .error (.invalidMode "Dataset not open in read mode"))

/-- Translation of `Dataset.create_dataset`: schema-shaping parameters are
applied, then the (idempotent) create call is issued. -/
def Dataset.create_dataset (d : Dataset) (extraAttrs : Option (List String))
    (tileCapacity : Option Nat) (anchorGap : Option Nat)
    (checksumType : Option String) (allowDuplicates : Bool) :
    Dataset × Except VCFError Unit :=
  if d.mode = "w" then
    let w := { d.writer with
               extraAttrsSel := some (String.intercalate "," (extraAttrs.getD [])) }
    let w := match tileCapacity with
      | some t => { w with tileCapacitySel := some t }
      | none => w
    let w := match anchorGap with
      | some a => { w with anchorGapSel := some a }
      | none => w
    let w := match checksumType with
      | some c => { w with checksumSel := some c.toLower }
      | none => w
    let w := { w with allowDuplicatesSel := some allowDuplicates }
    let w := { w with createCalls := w.createCalls + 1 }
    ({ d with writer := w }, .ok ())
  else
    (d, .error (.invalidMode "Dataset not open in write mode"))

/-- Translation of `Dataset.schema_version`: the source returns the
writer-reported version whenever the mode is not "r" and the
reader-reported version otherwise — it raises in neither mode. -/
def Dataset.schema_version (d : Dataset) : Except VCFError Nat :=
  if d.mode = "r" then .ok d.reader.schemaVersion
  else .ok d.writer.schemaVersion

/-- Translation of `Dataset.ingest_samples`: unset `sample_uris` returns
immediately; thread count and memory budget are applied if present; the
scratch pair must be given both-or-neither, otherwise the
incomplete-scratch failure is raised; then batch size and the sample list
are applied, datasets below schema version 4 are registered, and the
ingest call is issued. -/
def Dataset.ingest_samples (d : Dataset) (sampleUris : Option (List String))
    (threads : Option Nat) (memoryBudget : Option Nat)
    (scratchSpacePath : Option String) (scratchSpaceSize : Option Nat)
    (sampleBatchSize : Option Nat) : Dataset × Except VCFError Unit :=
  if d.mode = "w" then
    match sampleUris with
    | none => (d, .ok ())
    | some uris =>
      let w := d.writer
      let w := match threads with
        | some t => { w with numThreadsSel := some t }
        | none => w
      let w := match memoryBudget with
        | some m => { w with memoryBudgetSel := some m }
        | none => w
      match scratchSpacePath, scratchSpaceSize with
      | some p, some sz =>
          let w : WriterState := { w with scratchSpaceSel := some (p, sz) }
          let w : WriterState := match sampleBatchSize with
            | some b => { w with sampleBatchSizeSel := some b }
            | none => w
          let w : WriterState := { w with samplesSel := some (String.intercalate "," uris) }
          let w : WriterState := if w.schemaVersion < 4
            then { w with registerCalls := w.registerCalls + 1 }
            else w
          ({ d with writer := { w with ingestCalls := w.ingestCalls + 1 } }, .ok ())
      | none, none =>
          let w : WriterState := match sampleBatchSize with
            | some b => { w with sampleBatchSizeSel := some b }
            | none => w
          let w : WriterState := { w with samplesSel := some (String.intercalate "," uris) }
          let w : WriterState := if w.schemaVersion < 4
            then { w with registerCalls := w.registerCalls + 1 }
            else w
          ({ d with writer := { w with ingestCalls := w.ingestCalls + 1 } }, .ok ())
      | _, _ => ({ d with writer := w }, .error .incompleteScratchConfig)
  else
    (d, .error (.invalidMode "Dataset not open in write mode"))

/-- Translation of `Dataset.tiledb_stats`: the source tests the method
object `get_tiledb_stats_enabled` itself (no call parentheses), which is
always truthy, so the stats-not-enabled branch is unreachable and the
stats string is returned whenever the mode is "r". -/
def Dataset.tiledb_stats (d : Dataset) : Except VCFError String :=
  if d.mode = "r" then .ok d.reader.stats
  else .error (.invalidMode "Stats can only be called for reader")

/-- Translation of `Dataset.sample_count`. -/
def Dataset.sample_count (d : Dataset) : Except VCFError Nat :=
  if d.mode = "r" then .ok d.reader.sampleCountVal
  else .error (.invalidMode "Samples can only be retrieved for reader")

/-- Translation of `Dataset.samples`. -/
def Dataset.samples (d : Dataset) : Except VCFError (List String) :=
  if d.mode = "r" then .ok d.reader.sampleNames
  else .error (.invalidMode "Sample names can only be retrieved for reader")

/-- Sorted duplicate-free enumeration of a list of names, the translation
of Python `sorted(list(attrs))` applied to a set. -/
def sortedDedup (l : List String) : List String :=
  List.insertionSort (fun a b => a ≤ b) l.dedup

/-- Translation of `Dataset.attributes`: the kind must be one of the four
known values; "info" and "fmt" map to the engine lists; "all" and
"builtin" are computed as set differences of the queryable attributes,
returned sorted and duplicate-free. -/
def Dataset.attributes (d : Dataset) (attrType : String) :
    Except VCFError (List String) :=
  if d.mode = "r" then
    if attrType ∈ (["all", "info", "fmt", "builtin"] : List String) then
      if attrType = "info" then .ok d.reader.infoAttrs
      else if attrType = "fmt" then .ok d.reader.fmtAttrs
      else
        let base := d.reader.queryableAttrs.filter
          (fun a => a ∉ (["info", "fmt"] : List String))
        let attrs := if attrType = "builtin"
          then base.filter (fun a => a ∉ d.reader.infoAttrs ++ d.reader.fmtAttrs)
          else base
        .ok (sortedDedup attrs)
    else .error .invalidArgument
  else .error (.invalidMode "Attributes can only be retrieved in read mode")

/-- The manual pagination pattern from the caller's side: poll
`read_completed()`, and while it is false execute `continue_read()`,
collecting the chunk row counts.  Written against the public session
operations only. -/
def manualContinueLoop (d : Dataset) : Dataset × Except VCFError (List Nat) :=
  match hc : Dataset.read_completed d with
  | .error e => (d, .error e)
  | .ok true => (d, .ok [])
  | .ok false =>
    match hr : Dataset.continue_read d with
    | (d1, .error e) => (d1, .error e)
    | (d1, .ok rows) =>
      match manualContinueLoop d1 with
      | (d2, .ok rest) => (d2, .ok (rows :: rest))
      | (d2, .error e) => (d2, .error e)
termination_by readerMeasure d.reader
decreasing_by
  have hm : d.mode = "r" := by
    by_contra hne
    simp [Dataset.read_completed, hne] at hc
  have hcf : d.reader.completed = false := by
    simpa [Dataset.read_completed, hm] using hc
  have hd1 : d1.reader = engineRead d.reader := by
    simp [Dataset.continue_read, hm] at hr
    rw [← hr.1]
  rw [hd1]
  show readerMeasure (engineRead d.reader) < readerMeasure d.reader
  unfold engineRead readerMeasure
  cases hr2 : d.reader.remaining with
  | nil => simp [hcf]
  | cons c rest =>
      cases rest with
      | nil => simp [hcf, List.isEmpty]
      | cons c2 tl => simp [hcf, List.isEmpty]

/-- The manual read pattern of the specification: one `read(...)` call,
then `continue_read()` until `read_completed()` reports true. -/
def manualRead (d : Dataset) (attrs : List String) (samples : Option (List String))
    (regions : Option (List String)) (samplesFile : Option String)
    (bedFile : Option String) : Dataset × Except VCFError (List Nat) :=
  match Dataset.read d attrs samples regions samplesFile bedFile with
  | (d1, .error e) => (d1, .error e)
  | (d1, .ok rows) =>
    match manualContinueLoop d1 with
    | (d2, .ok rest) => (d2, .ok (rows :: rest))
    | (d2, .error e) => (d2, .error e)

/-- Total row count delivered by a sequence of chunks (zero when the run
failed). -/
def totalRows (res : Except VCFError (List Nat)) : Nat :=
  match res with
  | .ok chunks => chunks.sum
  | .error _ => 0

/-- A chain of `continue_read()` results: each element is produced by one
`continue_read()` issued while `read_completed()` reports false, and the
chain ends exactly when `read_completed()` reports true. -/
inductive ContinueChain : Dataset → List Nat → Dataset → Prop where
  | done (d : Dataset) (h : Dataset.read_completed d = .ok true) : ContinueChain d [] d
  | step (d d1 dF : Dataset) (rows : Nat) (rest : List Nat)
      (h : Dataset.read_completed d = .ok false)
      (hc : Dataset.continue_read d = (d1, .ok rows))
      (hr : ContinueChain d1 rest dF) : ContinueChain d (rows :: rest) dF

/-- A concrete engine environment used to exercise the theorems: three
chunks of sizes 4, 4 and 2, a small attribute universe, three samples,
schema version 4. -/
def sampleEnv : EngineEnv :=
  { plan := [4, 4, 2]
    queryableAttrs := ["sample_name", "contig", "pos_start", "info", "fmt", "info_DP", "fmt_GT"]
    infoAttrs := ["info_DP"]
    fmtAttrs := ["fmt_GT"]
    sampleNames := ["A", "B", "C"]
    sampleCountVal := 3
    schemaVersionVal := 4
    tiledbAvailable := true }

/-- A concrete read-mode session over `sampleEnv`. -/
def dsR : Dataset :=
  { uri := "ds", mode := "r", reader := freshReader sampleEnv, writer := freshWriter sampleEnv }

/-- A concrete write-mode session over `sampleEnv`. -/
def dsW : Dataset :=
  { uri := "ds", mode := "w", reader := freshReader sampleEnv, writer := freshWriter sampleEnv }

/-- A concrete mapping-shaped engine-override value, with one entry whose
value is the empty string (to exercise the filtering). -/
def dictCfgExample : TdbConfig :=
  .dict [("sm.tile_cache_size", "100"), ("skip.me", "")]

/-- A concrete read configuration carrying only the engine-override
field. -/
def readCfgExample : ReadConfig := { tiledb_config := some dictCfgExample }

theorem engineRead_measure_lt (r : ReaderState) (h : r.completed = false) :
    readerMeasure (engineRead r) < readerMeasure r := by
  unfold engineRead readerMeasure
  cases hr : r.remaining with
  | nil => simp [h]
  | cons c rest =>
      cases rest with
      | nil => simp [h, List.isEmpty]
      | cons c2 tl => simp [h, List.isEmpty]

theorem drainReader_completed_eq (r : ReaderState) (h : r.completed = true) :
    drainReader r = (r, []) := by
  unfold drainReader
  simp [h]

theorem drainReader_not_completed_eq (r : ReaderState) (h : r.completed = false) :
    drainReader r =
      ((drainReader (engineRead r)).1,
        (engineRead r).lastChunk :: (drainReader (engineRead r)).2) := by
  conv_lhs => unfold drainReader
  simp [h]

theorem drainReader_fst_completed (r : ReaderState) :
    (drainReader r).1.completed = true := by
  induction r using drainReader.induct with
  | case1 x hcase =>
      rw [drainReader_completed_eq x hcase]
      exact hcase
  | case2 x hcase r1 ih =>
      have hcf : x.completed = false := by simpa using hcase
      rw [drainReader_not_completed_eq x hcf]
      exact ih

theorem continue_read_of_read_mode (d : Dataset) (h : d.mode = "r") :
    Dataset.continue_read d =
      ({ d with reader := engineRead d.reader }, .ok (engineRead d.reader).lastChunk) := by
  simp [Dataset.continue_read, h]

theorem read_completed_of_read_mode (d : Dataset) (h : d.mode = "r") :
    Dataset.read_completed d = .ok d.reader.completed := by
  simp [Dataset.read_completed, h]

theorem read_fst_mode (d : Dataset) (attrs : List String)
    (samples regions : Option (List String)) (samplesFile bedFile : Option String) :
    (Dataset.read d attrs samples regions samplesFile bedFile).1.mode = d.mode := by
  unfold Dataset.read Dataset.continue_read setSamplesOp
  cases samples <;> cases samplesFile <;> cases bedFile <;>
    by_cases hm : d.mode = "r" <;> simp [hm]

theorem manualContinueLoop_completed (d : Dataset) (hm : d.mode = "r")
    (hc : d.reader.completed = true) : manualContinueLoop d = (d, .ok []) := by
  rw [manualContinueLoop.eq_def]
  split
  · rename_i e heq
    rw [read_completed_of_read_mode d hm, hc] at heq
    exact absurd heq (by simp)
  · rfl
  · rename_i heq
    rw [read_completed_of_read_mode d hm, hc] at heq
    exact absurd heq (by simp)

theorem manualContinueLoop_step (d : Dataset) (hm : d.mode = "r")
    (hc : d.reader.completed = false) :
    manualContinueLoop d =
      (match manualContinueLoop { d with reader := engineRead d.reader } with
       | (d2, .ok rest) => (d2, .ok ((engineRead d.reader).lastChunk :: rest))
       | (d2, .error e) => (d2, .error e)) := by
  rw [manualContinueLoop.eq_def]
  split
  · rename_i e heq
    rw [read_completed_of_read_mode d hm, hc] at heq
    exact absurd heq (by simp)
  · rename_i heq
    rw [read_completed_of_read_mode d hm, hc] at heq
    exact absurd heq (by simp)
  · split
    · rename_i d1 e heq
      rw [continue_read_of_read_mode d hm] at heq
      exact absurd heq (by simp)
    · rename_i d1 rows heq
      rw [continue_read_of_read_mode d hm] at heq
      injection heq with ha hb
      injection hb with hb
      subst ha
      subst hb
      rfl

theorem manualContinueLoop_eq_drain_bounded (n : Nat) :
    ∀ d : Dataset, d.mode = "r" → readerMeasure d.reader ≤ n →
      manualContinueLoop d =
        ({ d with reader := (drainReader d.reader).1 }, .ok ((drainReader d.reader).2)) := by
  induction n with
  | zero =>
      intro d hm hle
      have hc : d.reader.completed = true := by
        by_contra hne
        have hcf : d.reader.completed = false := by simpa using hne
        unfold readerMeasure at hle
        rw [hcf] at hle
        simp at hle
      rw [manualContinueLoop_completed d hm hc, drainReader_completed_eq _ hc]
  | succ n ih =>
      intro d hm hle
      by_cases hc : d.reader.completed
      · rw [manualContinueLoop_completed d hm hc, drainReader_completed_eq _ hc]
      · have hcf : d.reader.completed = false := by simpa using hc
        rw [manualContinueLoop_step d hm hcf, drainReader_not_completed_eq _ hcf]
        have hle1 : readerMeasure (engineRead d.reader) ≤ n := by
          have := engineRead_measure_lt d.reader hcf
          omega
        rw [ih { d with reader := engineRead d.reader } hm hle1]

theorem manualContinueLoop_eq_drain (d : Dataset) (hm : d.mode = "r") :
    manualContinueLoop d =
      ({ d with reader := (drainReader d.reader).1 }, .ok ((drainReader d.reader).2)) :=
  manualContinueLoop_eq_drain_bounded (readerMeasure d.reader) d hm le_rfl

theorem drain_chain (r : ReaderState) :
    ∀ d : Dataset, d.mode = "r" → d.reader = r →
      ContinueChain d (drainReader r).2 { d with reader := (drainReader r).1 } := by
  induction r using drainReader.induct with
  | case1 x hcase =>
      intro d hm hr
      subst hr
      rw [drainReader_completed_eq _ hcase]
      exact ContinueChain.done d (by rw [read_completed_of_read_mode d hm, hcase])
  | case2 x hcase r1 ih =>
      intro d hm hr
      subst hr
      have hcf : d.reader.completed = false := by simpa using hcase
      rw [drainReader_not_completed_eq _ hcf]
      refine ContinueChain.step d { d with reader := engineRead d.reader } _
        (engineRead d.reader).lastChunk _ ?_ ?_ ?_
      · rw [read_completed_of_read_mode d hm, hcf]
      · exact continue_read_of_read_mode d hm
      · exact ih { d with reader := engineRead d.reader } hm rfl

/-- C1: for every dataset and identical inputs (attributes, samples,
regions, samples file, BED file), iterating `read_iter` to exhaustion
yields the same total row count and the same final `read_completed()`
state as calling `read(...)` once and then `continue_read()` repeatedly
until `read_completed()` is true. -/
theorem readIter_equiv_manual_drain (d : Dataset) (hm : d.mode = "r")
    (hc : d.reader.completed = false) (attrs : List String)
    (samples regions : Option (List String)) (samplesFile bedFile : Option String) :
    totalRows (Dataset.read_iter d attrs samples regions samplesFile bedFile).2 =
      totalRows (manualRead d attrs samples regions samplesFile bedFile).2 ∧
    Dataset.read_completed (Dataset.read_iter d attrs samples regions samplesFile bedFile).1 =
      Dataset.read_completed (manualRead d attrs samples regions samplesFile bedFile).1 := by
  have key : Dataset.read_iter d attrs samples regions samplesFile bedFile =
      manualRead d attrs samples regions samplesFile bedFile := by
    unfold Dataset.read_iter manualRead
    cases hread : Dataset.read d attrs samples regions samplesFile bedFile with
    | mk d1 res =>
      cases res with
      | error e => simp [hm, hc, hread]
      | ok rows =>
        have hm1 : d1.mode = "r" := by
          have h := read_fst_mode d attrs samples regions samplesFile bedFile
          rw [hread] at h
          simp at h
          rw [h]
          exact hm
        simp [hm, hc, hread, manualContinueLoop_eq_drain d1 hm1]
  rw [key]
  exact ⟨rfl, rfl⟩

theorem readIter_equiv_manual_drain_witness :
    totalRows (Dataset.read_iter dsR ["pos_start"] none none none none).2 =
      totalRows (manualRead dsR ["pos_start"] none none none none).2 ∧
    Dataset.read_completed (Dataset.read_iter dsR ["pos_start"] none none none none).1 =
      Dataset.read_completed (manualRead dsR ["pos_start"] none none none none).1 :=
  readIter_equiv_manual_drain dsR rfl rfl ["pos_start"] none none none none

/-- C2: for a read-mode session, the sequence produced by `read_iter` has
the result of `read(...)` as its first element, each subsequent element is
the result of `continue_read()`, it terminates once `read_completed()` is
true after the most recently yielded element, and no engine read unit is
issued once the session is already completed (the iterator then yields
nothing and the state is untouched). -/
theorem readIter_sequence_spec (d : Dataset) (hm : d.mode = "r")
    (attrs : List String) (samples regions : Option (List String))
    (samplesFile bedFile : Option String) :
    (d.reader.completed = true →
      Dataset.read_iter d attrs samples regions samplesFile bedFile = (d, .ok [])) ∧
    (d.reader.completed = false →
      ∀ d1 rows, Dataset.read d attrs samples regions samplesFile bedFile = (d1, .ok rows) →
        ∃ rest dF,
          Dataset.read_iter d attrs samples regions samplesFile bedFile =
            (dF, .ok (rows :: rest)) ∧
          ContinueChain d1 rest dF ∧
          Dataset.read_completed dF = .ok true) := by
  constructor
  · intro hc
    simp [Dataset.read_iter, hm, hc]
  · intro hc d1 rows hread
    have hm1 : d1.mode = "r" := by
      have h := read_fst_mode d attrs samples regions samplesFile bedFile
      rw [hread] at h
      simp at h
      rw [h]
      exact hm
    refine ⟨(drainReader d1.reader).2, { d1 with reader := (drainReader d1.reader).1 },
      ?_, ?_, ?_⟩
    · simp [Dataset.read_iter, hm, hc, hread]
    · exact drain_chain d1.reader d1 hm1 rfl
    · rw [read_completed_of_read_mode { d1 with reader := (drainReader d1.reader).1 } hm1]
      simp [drainReader_fst_completed]

theorem readIter_sequence_spec_witness :
    (dsR.reader.completed = true →
      Dataset.read_iter dsR ["pos_start"] none none none none = (dsR, .ok [])) ∧
    (dsR.reader.completed = false →
      ∀ d1 rows, Dataset.read dsR ["pos_start"] none none none none = (d1, .ok rows) →
        ∃ rest dF,
          Dataset.read_iter dsR ["pos_start"] none none none none =
            (dF, .ok (rows :: rest)) ∧
          ContinueChain d1 rest dF ∧
          Dataset.read_completed dF = .ok true) :=
  readIter_sequence_spec dsR rfl ["pos_start"] none none none none

/-- C3: for a read-mode session, `count(samples, regions)` resets the
session, applies only sample and region selection (no attribute
projection, no BED or samples file), issues exactly one engine read unit,
raises the inconsistent-state failure if the engine reports the read
incomplete after that single unit, and otherwise returns the
engine-reported matched-record count. -/
theorem count_single_unit_spec (d : Dataset) (hm : d.mode = "r")
    (samples regions : Option (List String)) :
    (Dataset.count d samples regions).1.mode = d.mode ∧
    (Dataset.count d samples regions).1.reader.readCalls = d.reader.readCalls + 1 ∧
    (Dataset.count d samples regions).1.reader.attrsSel = none ∧
    (Dataset.count d samples regions).1.reader.bedFileSel = none ∧
    (Dataset.count d samples regions).1.reader.samplesFileSel = none ∧
    (Dataset.count d samples regions).1.reader.samplesSel =
      some (String.intercalate "," (samples.getD [])) ∧
    (Dataset.count d samples regions).1.reader.regionsSel =
      some (String.intercalate "," (regions.getD [])) ∧
    ((Dataset.count d samples regions).1.reader.completed = false →
      (Dataset.count d samples regions).2 = .error .inconsistentState) ∧
    ((Dataset.count d samples regions).1.reader.completed = true →
      (Dataset.count d samples regions).2 =
        .ok (resultNumRecords (Dataset.count d samples regions).1.reader)) := by
  unfold Dataset.count readerReset engineRead resultNumRecords
  cases hp : d.reader.plan with
  | nil => simp [hm, hp]
  | cons c rest =>
    cases rest with
    | nil => simp [hm, hp]
    | cons c2 rest2 => simp [hm, hp, List.isEmpty]

theorem count_single_unit_spec_witness :
    (Dataset.count dsR (some ["A"]) none).1.mode = dsR.mode ∧
    (Dataset.count dsR (some ["A"]) none).1.reader.readCalls = dsR.reader.readCalls + 1 ∧
    (Dataset.count dsR (some ["A"]) none).1.reader.attrsSel = none ∧
    (Dataset.count dsR (some ["A"]) none).1.reader.bedFileSel = none ∧
    (Dataset.count dsR (some ["A"]) none).1.reader.samplesFileSel = none ∧
    (Dataset.count dsR (some ["A"]) none).1.reader.samplesSel =
      some (String.intercalate "," ((some ["A"] : Option (List String)).getD [])) ∧
    (Dataset.count dsR (some ["A"]) none).1.reader.regionsSel =
      some (String.intercalate "," ((none : Option (List String)).getD [])) ∧
    ((Dataset.count dsR (some ["A"]) none).1.reader.completed = false →
      (Dataset.count dsR (some ["A"]) none).2 = .error .inconsistentState) ∧
    ((Dataset.count dsR (some ["A"]) none).1.reader.completed = true →
      (Dataset.count dsR (some ["A"]) none).2 =
        .ok (resultNumRecords (Dataset.count dsR (some ["A"]) none).1.reader)) :=
  count_single_unit_spec dsR rfl (some ["A"]) none

/-- C4: for a read-mode session, calling `read()` with both `samples` and
`samples_file` raises the conflicting-selection failure, regardless of the
attributes, regions and BED-file arguments, and the failure is raised
before any region or attribute selection (or any read unit) is applied to
the engine: the engine is left exactly in the reset state. -/
theorem read_conflicting_selection_spec (d : Dataset) (hm : d.mode = "r")
    (attrs : List String) (ss : List String) (regions : Option (List String))
    (f : String) (bedFile : Option String) :
    Dataset.read d attrs (some ss) regions (some f) bedFile =
      ({ d with reader := readerReset d.reader }, .error .conflictingSelection) ∧
    (readerReset d.reader).regionsSel = none ∧
    (readerReset d.reader).attrsSel = none ∧
    (readerReset d.reader).bedFileSel = none ∧
    (readerReset d.reader).readCalls = d.reader.readCalls := by
  refine ⟨?_, rfl, rfl, rfl, rfl⟩
  unfold Dataset.read setSamplesOp
  simp [hm]

theorem read_conflicting_selection_spec_witness :
    Dataset.read dsR ["pos_start"] (some ["A"]) none (some "samples.txt") none =
      ({ dsR with reader := readerReset dsR.reader }, .error .conflictingSelection) ∧
    (readerReset dsR.reader).regionsSel = none ∧
    (readerReset dsR.reader).attrsSel = none ∧
    (readerReset dsR.reader).bedFileSel = none ∧
    (readerReset dsR.reader).readCalls = dsR.reader.readCalls :=
  read_conflicting_selection_spec dsR rfl ["pos_start"] ["A"] none "samples.txt" none

theorem mem_sortedDedup (x : String) (l : List String) :
    x ∈ sortedDedup l ↔ x ∈ l := by
  unfold sortedDedup
  rw [List.mem_insertionSort]
  exact List.mem_dedup

theorem sortedDedup_sorted (l : List String) :
    List.Sorted (fun a b => a ≤ b) (sortedDedup l) :=
  List.sorted_insertionSort _ _

theorem sortedDedup_nodup (l : List String) : (sortedDedup l).Nodup :=
  (List.perm_insertionSort _ _).nodup_iff.mpr (List.nodup_dedup l)

/-- C5: for every dataset, `attributes("builtin")` is (as a set) the
queryable attributes minus the two pseudo-category names minus the union
of the info and fmt attribute names; `attributes("all")` is the queryable
attributes minus the two pseudo-category names, sorted and
duplicate-free; consequently `attributes("builtin")` is disjoint from
`attributes("info")` and `attributes("fmt")` and contained in
`attributes("all")`; and any kind outside the four known values raises
the invalid-argument failure. -/
theorem attributes_classification_spec (d : Dataset) (hm : d.mode = "r") :
    ∃ bl al,
      Dataset.attributes d "builtin" = .ok bl ∧
      Dataset.attributes d "all" = .ok al ∧
      Dataset.attributes d "info" = .ok d.reader.infoAttrs ∧
      Dataset.attributes d "fmt" = .ok d.reader.fmtAttrs ∧
      (∀ x, x ∈ bl ↔ x ∈ d.reader.queryableAttrs ∧ x ≠ "info" ∧ x ≠ "fmt" ∧
        x ∉ d.reader.infoAttrs ∧ x ∉ d.reader.fmtAttrs) ∧
      (∀ x, x ∈ al ↔ x ∈ d.reader.queryableAttrs ∧ x ≠ "info" ∧ x ≠ "fmt") ∧
      List.Sorted (fun a b => a ≤ b) al ∧ al.Nodup ∧
      List.Sorted (fun a b => a ≤ b) bl ∧ bl.Nodup ∧
      (∀ x ∈ bl, x ∉ d.reader.infoAttrs ∧ x ∉ d.reader.fmtAttrs) ∧
      bl ⊆ al ∧
      (∀ k, k ∉ (["all", "info", "fmt", "builtin"] : List String) →
        Dataset.attributes d k = .error .invalidArgument) := by
  have hbl : Dataset.attributes d "builtin" =
      .ok (sortedDedup ((d.reader.queryableAttrs.filter
        (fun a => a ∉ (["info", "fmt"] : List String))).filter
        (fun a => a ∉ d.reader.infoAttrs ++ d.reader.fmtAttrs))) := by
    simp [Dataset.attributes, hm]
  have hal : Dataset.attributes d "all" =
      .ok (sortedDedup (d.reader.queryableAttrs.filter
        (fun a => a ∉ (["info", "fmt"] : List String)))) := by
    simp [Dataset.attributes, hm]
  have hmemb : ∀ x, x ∈ sortedDedup ((d.reader.queryableAttrs.filter
        (fun a => a ∉ (["info", "fmt"] : List String))).filter
        (fun a => a ∉ d.reader.infoAttrs ++ d.reader.fmtAttrs)) ↔
      x ∈ d.reader.queryableAttrs ∧ x ≠ "info" ∧ x ≠ "fmt" ∧
        x ∉ d.reader.infoAttrs ∧ x ∉ d.reader.fmtAttrs := by
    intro x
    simp only [mem_sortedDedup, List.mem_filter, decide_eq_true_eq, List.mem_append,
      List.mem_cons, List.not_mem_nil, not_or, ne_eq]
    tauto
  have hmema : ∀ x, x ∈ sortedDedup (d.reader.queryableAttrs.filter
        (fun a => a ∉ (["info", "fmt"] : List String))) ↔
      x ∈ d.reader.queryableAttrs ∧ x ≠ "info" ∧ x ≠ "fmt" := by
    intro x
    simp only [mem_sortedDedup, List.mem_filter, decide_eq_true_eq, List.mem_cons,
      List.not_mem_nil, not_or, ne_eq]
    tauto
  refine ⟨_, _, hbl, hal, ?_, ?_, hmemb, hmema, sortedDedup_sorted _, sortedDedup_nodup _,
    sortedDedup_sorted _, sortedDedup_nodup _, ?_, ?_, ?_⟩
  · simp [Dataset.attributes, hm]
  · simp [Dataset.attributes, hm]
  · intro x hx
    have := (hmemb x).mp hx
    exact ⟨this.2.2.2.1, this.2.2.2.2⟩
  · intro x hx
    have := (hmemb x).mp hx
    exact (hmema x).mpr ⟨this.1, this.2.1, this.2.2.1⟩
  · intro k hk
    simp [Dataset.attributes, hm, hk]

theorem attributes_classification_spec_witness :
    ∃ bl al,
      Dataset.attributes dsR "builtin" = .ok bl ∧
      Dataset.attributes dsR "all" = .ok al ∧
      Dataset.attributes dsR "info" = .ok dsR.reader.infoAttrs ∧
      Dataset.attributes dsR "fmt" = .ok dsR.reader.fmtAttrs ∧
      (∀ x, x ∈ bl ↔ x ∈ dsR.reader.queryableAttrs ∧ x ≠ "info" ∧ x ≠ "fmt" ∧
        x ∉ dsR.reader.infoAttrs ∧ x ∉ dsR.reader.fmtAttrs) ∧
      (∀ x, x ∈ al ↔ x ∈ dsR.reader.queryableAttrs ∧ x ≠ "info" ∧ x ≠ "fmt") ∧
      List.Sorted (fun a b => a ≤ b) al ∧ al.Nodup ∧
      List.Sorted (fun a b => a ≤ b) bl ∧ bl.Nodup ∧
      (∀ x ∈ bl, x ∉ dsR.reader.infoAttrs ∧ x ∉ dsR.reader.fmtAttrs) ∧
      bl ⊆ al ∧
      (∀ k, k ∉ (["all", "info", "fmt", "builtin"] : List String) →
        Dataset.attributes dsR k = .error .invalidArgument) :=
  attributes_classification_spec dsR rfl

/-- C6: every present engine-override value is normalized to a single
comma-joined string handed to the engine, by both the read-side and the
write-side configuration translators: an ordered list of key=value
strings is joined as given; a mapping is converted to key=value entries
with empty-string values filtered out; an external tiledb configuration
object is iterated the same way, and when the external tiledb module is
unavailable the integration is silently skipped (the joined string is
empty and no failure is raised). -/
theorem tiledb_config_normalization_spec (cfg : ReadConfig) (c : TdbConfig)
    (avail : Bool) (hc : cfg.tiledb_config = some c)
    (r : ReaderState) (w : WriterState) :
    (setReadCfg r (some cfg) avail).tiledbConfigSel =
      some (normalizeTiledbConfig c avail) ∧
    (setWriteCfg w (some cfg) avail).tiledbConfigSel =
      some (normalizeTiledbConfig c avail) ∧
    (∀ items, normalizeTiledbConfig (.list items) avail =
      String.intercalate "," items) ∧
    (∀ entries, normalizeTiledbConfig (.dict entries) avail =
      String.intercalate ","
        ((entries.filter (fun kv => kv.2 ≠ "")).map (fun kv => kv.1 ++ "=" ++ kv.2))) ∧
    (∀ entries, normalizeTiledbConfig (.config entries) true =
      String.intercalate ","
        ((entries.filter (fun kv => kv.2 ≠ "")).map (fun kv => kv.1 ++ "=" ++ kv.2))) ∧
    (∀ entries, normalizeTiledbConfig (.config entries) false = "") := by
  refine ⟨?_, ?_, fun items => rfl, fun entries => rfl, fun entries => rfl,
    fun entries => rfl⟩
  · unfold setReadCfg
    cases cfg.limit <;> cases cfg.region_partition <;> cases cfg.sample_partition <;>
      cases cfg.sort_regions <;> cases cfg.memory_budget_mb <;> simp [hc]
  · unfold setWriteCfg
    simp [hc]

theorem tiledb_config_normalization_spec_witness :
    (setReadCfg { } (some readCfgExample) true).tiledbConfigSel =
      some (normalizeTiledbConfig dictCfgExample true) ∧
    (setWriteCfg { } (some readCfgExample) true).tiledbConfigSel =
      some (normalizeTiledbConfig dictCfgExample true) ∧
    (∀ items, normalizeTiledbConfig (.list items) true =
      String.intercalate "," items) ∧
    (∀ entries, normalizeTiledbConfig (.dict entries) true =
      String.intercalate ","
        ((entries.filter (fun kv => kv.2 ≠ "")).map (fun kv => kv.1 ++ "=" ++ kv.2))) ∧
    (∀ entries, normalizeTiledbConfig (.config entries) true =
      String.intercalate ","
        ((entries.filter (fun kv => kv.2 ≠ "")).map (fun kv => kv.1 ++ "=" ++ kv.2))) ∧
    (∀ entries, normalizeTiledbConfig (.config entries) false = "") :=
  tiledb_config_normalization_spec readCfgExample dictCfgExample true rfl { } { }

/-- C7 counterexample: with `sample_uris` unset, `ingest_samples` returns
before the scratch validation, so supplying exactly one of the scratch
parameters does not raise the incomplete-scratch failure — the call is a
silent no-op, refuting the claim that the failure is raised regardless of
the other arguments. -/
theorem ingest_scratch_noop_when_uris_unset :
    dsW.mode = "w" ∧
    Dataset.ingest_samples dsW none none none (some "scratch-dir") none none =
      (dsW, .ok ()) := by
  constructor
  · rfl
  · rfl

/-- C7, amended: for a write-mode session, calling `ingest_samples()` with
`sample_uris` set and exactly one of `scratch_space_path` and
`scratch_space_size` set (the other unset) raises the incomplete-scratch
failure regardless of the remaining arguments, and neither a registration
nor an ingest call is issued to the engine. -/
theorem ingest_scratch_incomplete_spec (d : Dataset) (hm : d.mode = "w")
    (uris : List String) (threads memoryBudget : Option Nat)
    (p : Option String) (s : Option Nat) (sampleBatchSize : Option Nat)
    (hps : p.isSome ≠ s.isSome) :
    (Dataset.ingest_samples d (some uris) threads memoryBudget p s sampleBatchSize).2 =
      .error .incompleteScratchConfig ∧
    (Dataset.ingest_samples d (some uris) threads memoryBudget p s
      sampleBatchSize).1.writer.ingestCalls = d.writer.ingestCalls ∧
    (Dataset.ingest_samples d (some uris) threads memoryBudget p s
      sampleBatchSize).1.writer.registerCalls = d.writer.registerCalls ∧
    (Dataset.ingest_samples d (some uris) threads memoryBudget p s
      sampleBatchSize).1.writer.samplesSel = d.writer.samplesSel ∧
    (Dataset.ingest_samples d (some uris) threads memoryBudget p s
      sampleBatchSize).1.mode = d.mode := by
  unfold Dataset.ingest_samples
  cases p <;> cases s <;> simp at hps <;>
    cases threads <;> cases memoryBudget <;> simp [hm]

theorem ingest_scratch_incomplete_spec_witness :
    (Dataset.ingest_samples dsW (some ["s1.vcf"]) none none (some "scratch-dir") none
      none).2 = .error .incompleteScratchConfig ∧
    (Dataset.ingest_samples dsW (some ["s1.vcf"]) none none (some "scratch-dir") none
      none).1.writer.ingestCalls = dsW.writer.ingestCalls ∧
    (Dataset.ingest_samples dsW (some ["s1.vcf"]) none none (some "scratch-dir") none
      none).1.writer.registerCalls = dsW.writer.registerCalls ∧
    (Dataset.ingest_samples dsW (some ["s1.vcf"]) none none (some "scratch-dir") none
      none).1.writer.samplesSel = dsW.writer.samplesSel ∧
    (Dataset.ingest_samples dsW (some ["s1.vcf"]) none none (some "scratch-dir") none
      none).1.mode = dsW.mode :=
  ingest_scratch_incomplete_spec dsW rfl ["s1.vcf"] none none (some "scratch-dir") none
    none (by decide)

/-- C8 counterexample: an empty (but set) `sample_uris` list is not a
no-op — the source only returns early on an unset value, so with an empty
list the sample selection and the ingest call do reach the engine. -/
theorem ingest_empty_list_reaches_engine :
    dsW.writer.ingestCalls = 0 ∧
    (Dataset.ingest_samples dsW (some []) none none none none none).1.writer.ingestCalls
      = 1 ∧
    (Dataset.ingest_samples dsW (some []) none none none none none).1.writer.samplesSel
      = some "" := by
  refine ⟨rfl, ?_, ?_⟩
  · rfl
  · rfl

/-- C8, amended: for a write-mode session, calling `ingest_samples()` with
`sample_uris` unset (None) is a no-op: the call succeeds and no writer
configuration, registration or ingest call reaches the engine — the
session state is unchanged.  An empty-but-set list is not covered: it
proceeds to issue engine calls. -/
theorem ingest_unset_noop_spec (d : Dataset) (hm : d.mode = "w")
    (threads memoryBudget : Option Nat) (p : Option String) (s : Option Nat)
    (sampleBatchSize : Option Nat) :
    Dataset.ingest_samples d none threads memoryBudget p s sampleBatchSize =
      (d, .ok ()) := by
  unfold Dataset.ingest_samples
  simp [hm]

theorem ingest_unset_noop_spec_witness :
    Dataset.ingest_samples dsW none (some 4) (some 512) none none (some 10) =
      (dsW, .ok ()) :=
  ingest_unset_noop_spec dsW rfl (some 4) (some 512) none none (some 10)

theorem continue_read_fst_mode (d : Dataset) :
    (Dataset.continue_read d).1.mode = d.mode := by
  unfold Dataset.continue_read
  split <;> rfl

theorem read_iter_fst_mode (d : Dataset) (attrs : List String)
    (samples regions : Option (List String)) (samplesFile bedFile : Option String) :
    (Dataset.read_iter d attrs samples regions samplesFile bedFile).1.mode = d.mode := by
  unfold Dataset.read_iter
  split
  · split
    · rfl
    · cases hread : Dataset.read d attrs samples regions samplesFile bedFile with
      | mk d1 res =>
        cases res with
        | error e =>
          have h2 := read_fst_mode d attrs samples regions samplesFile bedFile
          rw [hread] at h2
          simp at h2
          simp [hread, h2]
        | ok rows =>
          have h2 := read_fst_mode d attrs samples regions samplesFile bedFile
          rw [hread] at h2
          simp at h2
          simp [hread, h2]
  · rfl

theorem count_fst_mode (d : Dataset) (samples regions : Option (List String)) :
    (Dataset.count d samples regions).1.mode = d.mode := by
  unfold Dataset.count readerReset engineRead
  by_cases hm : d.mode = "r"
  · cases hp : d.reader.plan with
    | nil => simp [hm, hp]
    | cons c rest =>
      cases rest with
      | nil => simp [hm, hp]
      | cons c2 tl => simp [hm, hp, List.isEmpty]
  · simp [hm]

theorem create_dataset_fst_mode (d : Dataset) (extraAttrs : Option (List String))
    (tc ag : Option Nat) (ct : Option String) (ad : Bool) :
    (Dataset.create_dataset d extraAttrs tc ag ct ad).1.mode = d.mode := by
  unfold Dataset.create_dataset
  cases tc <;> cases ag <;> cases ct <;> by_cases hm : d.mode = "w" <;> simp [hm]

theorem ingest_samples_fst_mode (d : Dataset) (uris : Option (List String))
    (threads mb : Option Nat) (p : Option String) (s : Option Nat) (sbs : Option Nat) :
    (Dataset.ingest_samples d uris threads mb p s sbs).1.mode = d.mode := by
  unfold Dataset.ingest_samples
  cases uris <;> cases threads <;> cases mb <;> cases p <;> cases s <;> cases sbs <;>
    by_cases hm : d.mode = "w" <;> simp [hm]

/-- C9 counterexample: `schema_version()` does not fail on a write-mode
session — the source returns the writer-reported schema version whenever
the mode is not "r" (write mode relies on this inside `ingest_samples`),
refuting the claim that every listed read-side operation fails with the
invalid-mode error on a write-mode session. -/
theorem schema_version_write_mode_ok :
    dsW.mode = "w" ∧ Dataset.schema_version dsW = .ok 4 :=
  ⟨rfl, rfl⟩

/-- C9, amended: the access mode fixed at construction is never changed by
any operation; on a write-mode session every read-side operation except
`schema_version` fails with the invalid-mode error, while
`schema_version` succeeds and returns the writer-reported version; on a
read-mode session both write-side operations fail with the invalid-mode
error. -/
theorem mode_gating_spec (d e : Dataset) (hw : d.mode = "w") (hr : e.mode = "r")
    (attrs : List String) (samples regions : Option (List String))
    (samplesFile bedFile : Option String) (uris : Option (List String))
    (extraAttrs : Option (List String)) (tc ag : Option Nat) (ct : Option String)
    (ad : Bool) (threads mb ssz sbs : Option Nat) (sp : Option String) :
    Dataset.read d attrs samples regions samplesFile bedFile =
      (d, .error (.invalidMode "Dataset not open in read mode")) ∧
    Dataset.continue_read d =
      (d, .error (.invalidMode "Dataset not open in read mode")) ∧
    Dataset.read_completed d = .error (.invalidMode "Dataset not open in read mode") ∧
    Dataset.read_iter d attrs samples regions samplesFile bedFile =
      (d, .error (.invalidMode "Dataset not open in read mode")) ∧
    Dataset.count d samples regions =
      (d, .error (.invalidMode "Dataset not open in read mode")) ∧
    (∀ k, Dataset.attributes d k =
      .error (.invalidMode "Attributes can only be retrieved in read mode")) ∧
    Dataset.samples d =
      .error (.invalidMode "Sample names can only be retrieved for reader") ∧
    Dataset.sample_count d =
      .error (.invalidMode "Samples can only be retrieved for reader") ∧
    Dataset.tiledb_stats d = .error (.invalidMode "Stats can only be called for reader") ∧
    Dataset.schema_version d = .ok d.writer.schemaVersion ∧
    Dataset.create_dataset e extraAttrs tc ag ct ad =
      (e, .error (.invalidMode "Dataset not open in write mode")) ∧
    Dataset.ingest_samples e uris threads mb sp ssz sbs =
      (e, .error (.invalidMode "Dataset not open in write mode")) ∧
    (∀ f : Dataset,
      (Dataset.read f attrs samples regions samplesFile bedFile).1.mode = f.mode) ∧
    (∀ f : Dataset, (Dataset.continue_read f).1.mode = f.mode) ∧
    (∀ f : Dataset,
      (Dataset.read_iter f attrs samples regions samplesFile bedFile).1.mode = f.mode) ∧
    (∀ f : Dataset, (Dataset.count f samples regions).1.mode = f.mode) ∧
    (∀ f : Dataset, (Dataset.create_dataset f extraAttrs tc ag ct ad).1.mode = f.mode) ∧
    (∀ f : Dataset, (Dataset.ingest_samples f uris threads mb sp ssz sbs).1.mode = f.mode) :=
  ⟨by simp [Dataset.read, hw], by simp [Dataset.continue_read, hw],
    by simp [Dataset.read_completed, hw], by simp [Dataset.read_iter, hw],
    by simp [Dataset.count, hw], fun k => by simp [Dataset.attributes, hw],
    by simp [Dataset.samples, hw], by simp [Dataset.sample_count, hw],
    by simp [Dataset.tiledb_stats, hw], by simp [Dataset.schema_version, hw],
    by simp [Dataset.create_dataset, hr], by simp [Dataset.ingest_samples, hr],
    fun f => read_fst_mode f attrs samples regions samplesFile bedFile,
    fun f => continue_read_fst_mode f,
    fun f => read_iter_fst_mode f attrs samples regions samplesFile bedFile,
    fun f => count_fst_mode f samples regions,
    fun f => create_dataset_fst_mode f extraAttrs tc ag ct ad,
    fun f => ingest_samples_fst_mode f uris threads mb sp ssz sbs⟩

theorem mode_gating_spec_witness :
    Dataset.read dsW [] none none none none =
      (dsW, .error (.invalidMode "Dataset not open in read mode")) ∧
    Dataset.continue_read dsW =
      (dsW, .error (.invalidMode "Dataset not open in read mode")) ∧
    Dataset.read_completed dsW = .error (.invalidMode "Dataset not open in read mode") ∧
    Dataset.read_iter dsW [] none none none none =
      (dsW, .error (.invalidMode "Dataset not open in read mode")) ∧
    Dataset.count dsW none none =
      (dsW, .error (.invalidMode "Dataset not open in read mode")) ∧
    (∀ k, Dataset.attributes dsW k =
      .error (.invalidMode "Attributes can only be retrieved in read mode")) ∧
    Dataset.samples dsW =
      .error (.invalidMode "Sample names can only be retrieved for reader") ∧
    Dataset.sample_count dsW =
      .error (.invalidMode "Samples can only be retrieved for reader") ∧
    Dataset.tiledb_stats dsW =
      .error (.invalidMode "Stats can only be called for reader") ∧
    Dataset.schema_version dsW = .ok dsW.writer.schemaVersion ∧
    Dataset.create_dataset dsR none none none none true =
      (dsR, .error (.invalidMode "Dataset not open in write mode")) ∧
    Dataset.ingest_samples dsR none none none none none none =
      (dsR, .error (.invalidMode "Dataset not open in write mode")) ∧
    (∀ f : Dataset, (Dataset.read f [] none none none none).1.mode = f.mode) ∧
    (∀ f : Dataset, (Dataset.continue_read f).1.mode = f.mode) ∧
    (∀ f : Dataset, (Dataset.read_iter f [] none none none none).1.mode = f.mode) ∧
    (∀ f : Dataset, (Dataset.count f none none).1.mode = f.mode) ∧
    (∀ f : Dataset, (Dataset.create_dataset f none none none none true).1.mode = f.mode) ∧
    (∀ f : Dataset,
      (Dataset.ingest_samples f none none none none none none).1.mode = f.mode) :=
  mode_gating_spec dsW dsR rfl rfl [] none none none none none none none none none true
    none none none none none

/-- C10: constructing a session with a mode string other than "r" or "w"
fails immediately with the unsupported-mode error, taking the error
branch before any engine handle is created or initialized, so no engine
call is issued for an invalid mode. -/
theorem init_unsupported_mode_spec (uri mode : String) (cfg : Option ReadConfig)
    (stats verbose : Bool) (env : EngineEnv) (h1 : mode ≠ "r") (h2 : mode ≠ "w") :
    Dataset.init uri mode cfg stats verbose env = .error (.unsupportedMode mode) := by
  unfold Dataset.init
  simp [h1, h2]

theorem init_unsupported_mode_spec_witness :
    Dataset.init "ds" "x" none false false sampleEnv = .error (.unsupportedMode "x") :=
  init_unsupported_mode_spec "ds" "x" none false false sampleEnv (by decide) (by decide)
